import Mathlib

/-
Verification development for the debug-configuration resolution workflow of
a Java debug extension (source: src/configurationProvider.ts).

The TypeScript source is shallowly embedded:
* plain JavaScript values touched by the dynamic parts of the code
  (platform-override blocks) are modelled by the inductive `JSVal`;
* the pure helpers `concatArgs`, `isEmptyConfig`, `mergePlatformProperties`
  and `persistLaunchConfig` are translated directly;
* the async method `resolveAndValidateDebugConfiguration` is translated as a
  pure function over an explicit environment `Env` that supplies the results
  of every external collaborator call (language-server commands, user
  prompts, cancellation checks), returning the resolved configuration
  (`none` models the method returning `undefined`) together with the final
  in-place state of the configuration object and a trace of observable
  effects.
-/

namespace JavaDebug

/-! ## A model of plain JavaScript values

Used for the parts of the code that treat the configuration as a dynamic
object (`mergePlatformProperties` iterates `Object.keys`).  `undefined` models
the JavaScript value `undefined`. -/

inductive JSVal where
  | undefined
  | null
  | bool (b : Bool)
  | num (n : Int)
  | str (s : String)
  | obj (fields : List (String × JSVal))
  | arr (elems : List JSVal)
deriving Repr

/-- JavaScript truthiness of a value. (`num` models only integral numbers,
so there is no NaN case; `""` and `0` are falsy.) -/
def JSVal.truthy : JSVal → Bool
  | .undefined => false
  | .null => false
  | .bool b => b
  | .num n => n != 0
  | .str s => s != ""
  | .obj _ => true
  | .arr _ => true

/-- Property lookup in an object field list: first binding wins,
missing keys give `undefined` (as JavaScript property access does). -/
def lookupField : List (String × JSVal) → String → JSVal
  | [], _ => .undefined
  | (k, v) :: rest, key => if k = key then v else lookupField rest key

/-- Property assignment in an object field list: replace the first binding
of the key if present, otherwise append a new binding. -/
def setField : List (String × JSVal) → String → JSVal → List (String × JSVal)
  | [], key, v => [(key, v)]
  | (k, w) :: rest, key, v =>
    if k = key then (k, v) :: rest else (k, w) :: setField rest key v

/-- JavaScript property read `v[k]`.  On objects this is field lookup; on
arrays and strings, numeric indices read elements/characters; every other
access yields `undefined` (property access on a primitive does not throw). -/
def JSVal.getProp : JSVal → String → JSVal
  | .obj fields, key => lookupField fields key
  | .arr elems, key =>
    match key.toNat? with
    | some i => elems.getD i .undefined
    | none => .undefined
  | .str s, key =>
    match key.toNat? with
    | some i =>
      if i < s.data.length then .str (String.mk [s.data.getD i ' ']) else .undefined
    | none => .undefined
  | _, _ => .undefined

/-- JavaScript property write `v[k] = w`.  Meaningful on objects; on every
other value the assignment is silently dropped (non-strict-mode JS). -/
def JSVal.setProp : JSVal → String → JSVal → JSVal
  | .obj fields, key, v => .obj (setField fields key v)
  | other, _, _ => other

/-- Enumerable own keys, as returned by `Object.keys`: field names of an
object, indices of an array or string, nothing for primitives. -/
def JSVal.ownKeys : JSVal → List String
  | .obj fields => fields.map Prod.fst
  | .arr elems => (List.range elems.length).map toString
  | .str s => (List.range s.data.length).map toString
  | _ => []

/-! ## mergePlatformProperties (configurationProvider.ts lines 144-155)

```
if (config && platformName && config[platformName]) {
    for (const key of Object.keys(config[platformName])) {
        config[key] = config[platformName][key];
    }
    config[platformName] = undefined;
}
```

`platformName` is `undefined` on an unrecognised OS, modelled by `none`.
Note that the loop body re-reads `config[platformName]` on every iteration,
while the key list is computed once before the loop; the translation keeps
both behaviours.  The surrounding `try`/`catch` can only swallow a throw
from `Object.keys(undefined)`, which the truthiness guard already rules
out, so it has no observable effect here. -/

def mergePlatformProperties (platformName : Option String) (config : JSVal) : JSVal :=
  match platformName with
  | none => config
  | some pn =>
    if config.truthy && (config.getProp pn).truthy then
      let ks := (config.getProp pn).ownKeys
      let merged := ks.foldl (fun acc k => acc.setProp k ((acc.getProp pn).getProp k)) config
      merged.setProp pn .undefined
    else config

/-! ## concatArgs (configurationProvider.ts lines 363-374)

```
return _.join(_.map(args, (arg: any): string => {
    const str = String(arg);
    if (/["\s]/.test(str)) {
        return "\"" + str.replace(/(["\\])/g, "\\$1") + "\"";
    }
    return str;
}), " ");
```
-/

/-- Tokens an `args`/`vmArgs` array may hold; `String(arg)` coercion is
modelled for the primitive shapes. -/
inductive JSTok where
  | str (s : String)
  | num (n : Int)
  | bool (b : Bool)
deriving Repr, DecidableEq

/-- JavaScript `String(arg)` coercion for the modelled token shapes. -/
def JSTok.jsToString : JSTok → String
  | .str s => s
  | .num n => toString n
  | .bool b => if b then "true" else "false"

/-- Whitespace class of the JavaScript regex `\s`, restricted to the ASCII
whitespace characters. -/
def isJsWhitespace (c : Char) : Bool :=
  c = ' ' || c = '\t' || c = '\n' || c = '\r' || c = '\x0b' || c = '\x0c'

/-- Test of the regex `/["\s]/`: does the string contain a double quote or
a whitespace character? -/
def needsQuoting (s : String) : Bool :=
  s.data.any (fun c => c = '"' || isJsWhitespace c)

/-- Replacement `str.replace(/(["\\])/g, "\\$1")`: prefix every double
quote and every backslash with a backslash. -/
def escapeQuotes (s : String) : String :=
  String.mk (s.data.foldr (fun c acc => if c = '"' || c = '\\' then '\\' :: c :: acc else c :: acc) [])

/-- Per-token transformation applied by `concatArgs`. -/
def quoteToken (arg : JSTok) : String :=
  let str := arg.jsToString
  if needsQuoting str then "\"" ++ escapeQuotes str ++ "\"" else str

/-- Translation of `concatArgs`. -/
def concatArgs (args : List JSTok) : String :=
  String.intercalate " " (args.map quoteToken)

/-! ## isEmptyConfig (configurationProvider.ts lines 380-382)

```
return Object.keys(config).filter((key: string) => key !== "noDebug").length === 0;
```

The function only looks at the key set of the configuration object, so it
is translated as a function of that key list. -/

def isEmptyConfig (keys : List String) : Bool :=
  (keys.filter (fun key => key != "noDebug")).length == 0

/-! ## Data model of the resolution pipeline -/

/-- Severity-like tag of a logged/shown message (logger.Type in the source;
only the members the resolution pipeline uses are modelled). -/
inductive LogType where
  | usageError
  | exception
deriving Repr, DecidableEq

/-- The payload of a `utility.UserError`: message, type tag, optional
documentation anchor. -/
structure UserErrorContext where
  message : String
  ty : LogType
  anchorTag : Option String := none
deriving Repr, DecidableEq

/-- Errors that can be thrown across the pipeline:
`utility.JavaExtensionNotEnabledError`, `utility.UserError`, or any other
(infrastructure) error carrying a message. -/
inductive JsError where
  | notEnabled
  | userError (ctx : UserErrorContext)
  | generic (message : String)
deriving Repr, DecidableEq

/-- Value of the `args`/`vmArgs` fields: absent, a pre-formatted string, or
an array of tokens to be concatenated. -/
inductive ArgVal where
  | undefined
  | str (s : String)
  | arr (toks : List JSTok)
deriving Repr, DecidableEq

/-- Value of the `processId` field: a string or a number. -/
inductive PIdVal where
  | str (s : String)
  | num (n : Int)
deriving Repr, DecidableEq

/-- Decimal digit-string parser used to model JavaScript `Number(...)`. -/
def parseDigits : List Char → Option Nat
  | [] => none
  | cs =>
    if cs.all Char.isDigit then
      some (cs.foldl (fun acc c => acc * 10 + (c.toNat - 48)) 0)
    else none

/-- JavaScript `Number(s)` coercion of a string, restricted to the integer
literals relevant to process ids: surrounding whitespace is trimmed, the
empty string is `0`, an optional sign followed by decimal digits is parsed,
and anything else is NaN (modelled as `none`). -/
def jsStringToNumber (s : String) : Option Int :=
  let t := ((s.data.dropWhile Char.isWhitespace).reverse.dropWhile Char.isWhitespace).reverse
  if t = [] then some 0
  else
    match t with
    | '-' :: rest => (parseDigits rest).map (fun n => -(n : Int))
    | '+' :: rest => (parseDigits rest).map (fun n => (n : Int))
    | cs => (parseDigits cs).map (fun n => (n : Int))

/-- JavaScript `Number(processId)`; `none` models NaN. -/
def PIdVal.jsNumber : PIdVal → Option Int
  | .num n => some n
  | .str s => jsStringToNumber s

/-- JavaScript string interpolation of a `processId` value. -/
def PIdVal.jsToString : PIdVal → String
  | .num n => toString n
  | .str s => s

/-- Truthiness of an optional string field (absent and `""` are falsy). -/
def strTruthy : Option String → Bool
  | none => false
  | some s => s != ""

/-- Truthiness of the numeric `port` field (absent and `0` are falsy). -/
def portTruthy : Option Int → Bool
  | none => false
  | some n => n != 0

/-- Lodash `_.isEmpty` on an optional array field (`undefined` and `[]` are
both empty). -/
def pathsEmpty : Option (List String) → Bool
  | none => true
  | some l => l.isEmpty

/-- An entry-point candidate returned by the language server
(lsPlugin.IMainClassOption). -/
structure MainClassOption where
  mainClass : String
  projectName : Option String := none
  filePath : Option String := none
deriving Repr, DecidableEq

/-- Result of the `validateLaunchConfig` language-server command
(lsPlugin.ILaunchValidationResponse). -/
structure ValidationResponse where
  mainClassValid : Bool
  mainClassMessage : Option String := none
  projectNameValid : Bool
  projectNameMessage : Option String := none
  proposals : Option (List MainClassOption) := none
deriving Repr, DecidableEq

/-- A debuggable endpoint resolved from a process id (processPicker). -/
structure JavaProcess where
  hostName : String
  debugPort : Int
deriving Repr, DecidableEq

/-- The debug configuration record, with the fields the resolution pipeline
reads or writes.  `keys` is the key set `Object.keys(config)` of the
underlying object at resolution entry, which is what `isEmptyConfig`
inspects; `progressId` is the internal `__progressId` correlation field. -/
structure Config where
  keys : List String := []
  type : Option String := none
  name : Option String := none
  request : Option String := none
  mainClass : Option String := none
  projectName : Option String := none
  classPaths : Option (List String) := none
  modulePaths : Option (List String) := none
  vmArgs : ArgVal := .undefined
  args : ArgVal := .undefined
  console : Option String := none
  internalConsoleOptions : Option String := none
  cwd : Option String := none
  javaExec : Option String := none
  shortenCommandLine : Option String := none
  launcherScript : Option String := none
  hostName : Option String := none
  port : Option Int := none
  processId : Option PIdVal := none
  progressId : Option String := none
  noDebug : Bool := false
deriving Repr, DecidableEq

/-- The syntactic sites of `progressReporter.isCancelled()` checks in
`resolveAndValidateDebugConfiguration` (by source line). -/
inductive CheckSite where
  | preTry            -- line 180, before the try block is entered
  | afterStandardMode -- line 186
  | afterBuild        -- line 226
  | beforeClasspath   -- line 244
  | afterArgs         -- line 270
  | final             -- line 337 (checked together with the token)
deriving Repr, DecidableEq

/-- Observable effects of the code other than `progressReporter.cancel()`:
remote language-server calls, user-visible messages and prompts,
progress reports, telemetry, and the settings write-back. -/
inductive InnerEff where
  | callWaitForStandardMode
  | callUpdateDebugSettings
  | report (phase message : String)
  | callBuildWorkspace
  | callResolveMainMethod (file : String)
  | showQuickPick
  | callResolveMainClass
  | showQuickPickRecent (hint : String)
  | callValidateLaunchConfig (mainClass : String)
  | showTroubleshooting (ctx : UserErrorContext)
  | sendTelemetry
  | writeConfigurations (configs : List Config)
  | callResolveClasspath (mainClass : String)
  | callResolveJavaExecutable (mainClass : String)
  | callPopulateStepFilters
  | callDetectPreviewFlag
  | callValidateRuntime
  | callAddMoreHelpfulVMArgs
  | callDetectLaunchCommandStyle
  | showErrorMessage (message : String)
  | callResolveJavaProcess (pid : Int)
  | guideToInstallJavaExtension
deriving Repr, DecidableEq

/-- Full effect alphabet of one resolution run: the inner effects plus the
tracker disposal `progressReporter.cancel()`. -/
inductive Eff where
  | act (e : InnerEff)
  | trackerCancel
deriving Repr, DecidableEq

/-- The environment of one resolution run: the results every external
collaborator (language server, user prompts, settings, cancellation
source) would return at each call site of the pipeline. -/
structure Env where
  trackerRegistered : Bool
  cancelled : CheckSite → Bool
  tokenCancelled : Bool
  standardMode : Except JsError Bool
  isUserSettingsDirty : Bool
  settingsVmArgs : ArgVal
  settingsConsole : Option String
  needsBuild : Bool
  buildResult : Except JsError Bool
  isFile : String → Bool
  activeFile : Option String
  resolveMainMethod : String → Except JsError (List MainClassOption)
  pickMainClass : List MainClassOption → Option MainClassOption
  resolveMainClassList : Except JsError (List MainClassOption)
  workspaceFolderName : Option String
  pickRecentMainClass : List MainClassOption → Option MainClassOption
  validateLaunchConfig : String → Option String → Bool → Except JsError ValidationResponse
  fixAnswer : Option String
  pickFixMainClass : List MainClassOption → Option MainClassOption
  storedConfigs : List Config
  resolveClasspath : String → Option String → Except JsError (List String × List String)
  resolveJavaExecutable : String → Option String → Except JsError String
  folderPath : Option String
  detectPreviewFlag : String → Option String → Except JsError Bool
  helpfulVmArgs : ArgVal → ArgVal
  detectLaunchCommandStyle : Except JsError String
  isWin32 : Bool
  launcherScriptPath : String
  resolveJavaProcess : Int → Except JsError (Option JavaProcess)

/-! ## Message and error constants (verbatim from the source) -/

def pickJavaProcessSentinel : String := "$\x7bcommand:PickJavaProcess\x7d"

def classpathErrorContext : UserErrorContext :=
  { message := "Cannot resolve the modulepaths/classpaths automatically, please specify the value in the launch.json.",
    ty := .usageError }

def requestTypeError (request : Option String) : UserErrorContext :=
  { message := "Request type \"" ++ request.getD "undefined"
      ++ "\" is not supported. Only \"launch\" and \"attach\" are supported.",
    ty := .usageError,
    anchorTag := some "REQUEST_TYPE_NOT_SUPPORTED" }

def attachConfigError : UserErrorContext :=
  { message := "Please specify the hostName/port directly, or provide the processId of the remote debuggee in the launch.json.",
    ty := .usageError,
    anchorTag := some "ATTACH_CONFIG_ERROR" }

def invalidPidMessage (p : PIdVal) : String :=
  "The processId config \x27" ++ p.jsToString ++ "\x27 is not a valid process id."

def notDebuggableMessage (p : PIdVal) : String :=
  "Attach to process: pid \x27" ++ p.jsToString ++ "\x27 is not a debuggable Java process. "
    ++ "Please make sure the process has turned on debug mode using vmArgs like "
    ++ "\x27-agentlib:jdwp=transport=dt_socket,server=y,address=5005.\x27"

def cannotFindMainError (folderName : Option String) : UserErrorContext :=
  { message := "Cannot find a class with the main method"
      ++ (match folderName with
          | some n => " in the folder \x27" ++ n ++ "\x27"
          | none => "") ++ ".",
    ty := .usageError,
    anchorTag := some "CANNOT_FIND_MAIN_CLASS" }

/-- Model of node `path.basename` for the forward-slash separator. -/
def jsBasename (p : String) : String :=
  (p.splitOn "/").getLastD p

/-! ## Configuration persistence (lines 473-491) -/

/-- Translation of `persistLaunchConfig`: find the first stored
configuration deep-equal (`_.isEqual`) to `oldConfig`; if found, replace it
with `newConfig` and write the whole list back; otherwise do nothing.  The
result is the stored list after the call plus the write effects. -/
def persistLaunchConfig (stored : List Config) (oldConfig newConfig : Config) :
    List Config × List InnerEff :=
  match stored.findIdx? (fun c => c == oldConfig) with
  | some i => (stored.set i newConfig, [.writeConfigurations (stored.set i newConfig)])
  | none => (stored, [])

/-- Translation of `persistMainClassOption`: clone the configuration, apply
the accepted fix, and persist. -/
def persistMainClassOption (stored : List Config) (oldConfig : Config)
    (change : MainClassOption) : List Config × List InnerEff :=
  let newConfig := { oldConfig with
                     mainClass := some change.mainClass
                     projectName := change.projectName }
  persistLaunchConfig stored oldConfig newConfig

/-! ## Main-class resolution (lines 384-507) -/

/-- The validation error messages collected by `fixMainClass`
(JavaScript `String(undefined)` prints as "undefined"). -/
def fixErrors (vr : ValidationResponse) : List String :=
  (if !vr.mainClassValid then [vr.mainClassMessage.getD "undefined"] else [])
    ++ (if !vr.projectNameValid then [vr.projectNameMessage.getD "undefined"] else [])

/-- Translation of `fixMainClass` (lines 423-471). -/
def fixMainClass (env : Env) (config : Config) (vr : ValidationResponse) :
    Except JsError (Option MainClassOption) × List InnerEff :=
  let errors := String.intercalate "\n" (fixErrors vr)
  let proposalsNonEmpty := match vr.proposals with
    | some proposals => proposals.length != 0
    | none => false
  if proposalsNonEmpty then
    let proposals := (vr.proposals).getD []
    let effs0 := [InnerEff.report "Confirm Config Error" "Config error, please select the next action...",
                  InnerEff.showTroubleshooting { message := errors, ty := .usageError,
                                                 anchorTag := some "FAILED_TO_RESOLVE_CLASSPATH" }]
    if env.fixAnswer == some "Fix" then
      let effs1 := effs0 ++ [InnerEff.report "Select mainClass" "Select the main class to run...",
                             InnerEff.showQuickPick]
      match env.pickFixMainClass proposals with
      | some selectedFix =>
        let persistEffs := (persistMainClassOption env.storedConfigs config selectedFix).2
        (.ok (some selectedFix),
         effs1 ++ [InnerEff.sendTelemetry, InnerEff.sendTelemetry] ++ persistEffs)
      | none => (.ok none, effs1)
    else (.ok none, effs0)
  else
    (.error (.userError { message := errors, ty := .usageError,
                          anchorTag := some "FAILED_TO_RESOLVE_CLASSPATH" }), [])

/-- Translation of `promptMainClass` (lines 493-507). -/
def promptMainClass (env : Env) (hint : String) :
    Except JsError (Option MainClassOption) × List InnerEff :=
  match env.resolveMainClassList with
  | .error e => (.error e, [InnerEff.callResolveMainClass])
  | .ok res =>
    if res.length == 0 then
      (.error (.userError (cannotFindMainError env.workspaceFolderName)),
       [InnerEff.callResolveMainClass])
    else
      (.ok (env.pickRecentMainClass res),
       [InnerEff.callResolveMainClass,
        InnerEff.report "Select mainClass" "Selecting the main class to run...",
        InnerEff.showQuickPickRecent hint])

/-- Translation of `resolveAndValidateMainClass` (lines 384-412). -/
def resolveAndValidateMainClass (env : Env) (config : Config) :
    Except JsError (Option MainClassOption) × List InnerEff :=
  if !strTruthy config.mainClass || env.isFile (config.mainClass.getD "") then
    let currentFile := if strTruthy config.mainClass then config.mainClass else env.activeFile
    let hintMessage := if strTruthy currentFile then
        "The file \x27" ++ jsBasename (currentFile.getD "")
          ++ "\x27 is not executable, please select a main class you want to run."
      else "Please select a main class you want to run."
    if strTruthy currentFile then
      match env.resolveMainMethod (currentFile.getD "") with
      | .error e => (.error e, [InnerEff.callResolveMainMethod (currentFile.getD "")])
      | .ok mainEntries =>
        if mainEntries.length != 0 then
          (.ok (env.pickMainClass mainEntries),
           [InnerEff.callResolveMainMethod (currentFile.getD ""),
            InnerEff.report "Select mainClass" "Selecting the main class to run...",
            InnerEff.showQuickPick])
        else
          let pr := promptMainClass env hintMessage
          (pr.1, InnerEff.callResolveMainMethod (currentFile.getD "") :: pr.2)
    else promptMainClass env hintMessage
  else
    let mc := config.mainClass.getD ""
    let containsExternalClasspaths := !pathsEmpty config.classPaths || !pathsEmpty config.modulePaths
    match env.validateLaunchConfig mc config.projectName containsExternalClasspaths with
    | .error e => (.error e, [InnerEff.callValidateLaunchConfig mc])
    | .ok vr =>
      if !vr.mainClassValid || !vr.projectNameValid then
        let fx := fixMainClass env config vr
        (fx.1, InnerEff.callValidateLaunchConfig mc :: fx.2)
      else
        (.ok (some { mainClass := mc, projectName := config.projectName }),
         [InnerEff.callValidateLaunchConfig mc])

/-! ## The resolution pipeline (lines 172-358) -/

/-- Outcome of a pipeline section.  `outcome = .ok none` models an early
`return undefined;`, `.ok (some c)` models falling through with the
configuration in state `c`, and `.error e` models a thrown error.  `state`
is the configuration object after its in-place mutations (it is retained
even when the method returns `undefined`), and `effs` the emitted
effects in order. -/
structure PipeOut where
  outcome : Except JsError (Option Config)
  state : Config
  effs : List InnerEff
deriving Repr

/-- Prepend earlier effects to a pipeline outcome. -/
def PipeOut.prepend (effs : List InnerEff) (r : PipeOut) : PipeOut :=
  { r with effs := effs ++ r.effs }

/-- Lines 202-216: fill `vmArgs`/`console` defaults from the global
settings and pin `internalConsoleOptions` for the integrated terminal. -/
def applyLaunchDefaults (env : Env) (config : Config) : Config :=
  let c1 := if config.vmArgs == ArgVal.undefined then { config with vmArgs := env.settingsVmArgs } else config
  let c2 := if !strTruthy c1.console then { c1 with console := env.settingsConsole } else c1
  if c2.console == some "integratedTerminal" && !strTruthy c2.internalConsoleOptions then
    { c2 with internalConsoleOptions := some "neverOpen" }
  else c2

/-- JavaScript coercion `(vmArgs || "")` followed by string concatenation:
absent values give the empty string; an array stringifies with commas. -/
def argValOrEmptyString : ArgVal → String
  | .undefined => ""
  | .str s => s
  | .arr toks => String.intercalate "," (toks.map JSTok.jsToString)

/-- Lines 289-291: the platform-specific launcher-script adjustment, the
last step of the launch pipeline. -/
def launchFinish (env : Env) (c : Config) : PipeOut :=
  let c9 := if env.isWin32 && c.console != some "internalConsole" then
      { c with launcherScript := some env.launcherScriptPath }
    else c
  ⟨.ok (some c9), c9, []⟩

/-- Lines 285-288: determine the shorten-command-line strategy when it is
not explicitly configured, then finish. -/
def launchStyleStep (env : Env) (c7 : Config) : PipeOut :=
  if !strTruthy c7.shortenCommandLine || c7.shortenCommandLine == some "auto" then
    PipeOut.prepend [InnerEff.callDetectLaunchCommandStyle]
      (match env.detectLaunchCommandStyle with
       | .error e => ⟨.error e, c7, []⟩
       | .ok style => launchFinish env { c7 with shortenCommandLine := some style })
  else launchFinish env c7

/-- Lines 273-288: step filters, the preview flag with its extra VM flag
and runtime validation, the extra helpful VM args, and the launch style. -/
def launchVmArgsSteps (env : Env) (c5 : Config) : PipeOut :=
  PipeOut.prepend [InnerEff.callPopulateStepFilters, InnerEff.callDetectPreviewFlag]
    (match env.detectPreviewFlag (c5.mainClass.getD "") c5.projectName with
     | .error e => ⟨.error e, c5, []⟩
     | .ok previewEnabled =>
       let c6 := if previewEnabled then
           { c5 with vmArgs := .str (argValOrEmptyString c5.vmArgs ++ " --enable-preview") }
         else c5
       PipeOut.prepend ((if previewEnabled then [InnerEff.callValidateRuntime] else [])
           ++ [InnerEff.callAddMoreHelpfulVMArgs])
         (launchStyleStep env { c6 with vmArgs := env.helpfulVmArgs c6.vmArgs }))

/-- Lines 244-291: the launch pipeline from the cancellation check before
the classpath call to the launcher-script adjustment.  `config` already
carries the resolved `mainClass`/`projectName`. -/
def launchTail (env : Env) (config : Config) : PipeOut :=
  if env.cancelled .beforeClasspath then ⟨.ok none, config, []⟩
  else
    let mc := config.mainClass.getD ""
    let cpStep : Except JsError Config × List InnerEff :=
      if pathsEmpty config.classPaths && pathsEmpty config.modulePaths then
        match env.resolveClasspath mc config.projectName with
        | .error e => (.error e, [InnerEff.callResolveClasspath mc])
        | .ok result =>
          (.ok { config with modulePaths := some result.1, classPaths := some result.2 },
           [InnerEff.callResolveClasspath mc])
      else (.ok config, [])
    match cpStep with
    | (.error e, effs) => ⟨.error e, config, effs⟩
    | (.ok c1, effs) =>
      PipeOut.prepend effs
        (if pathsEmpty c1.classPaths && pathsEmpty c1.modulePaths then
          ⟨.error (.userError classpathErrorContext), c1, []⟩
        else
          PipeOut.prepend [InnerEff.callResolveJavaExecutable mc]
            (match env.resolveJavaExecutable mc c1.projectName with
             | .error e => ⟨.error e, c1, []⟩
             | .ok javaExec =>
               let c2 := { c1 with javaExec := some javaExec }
               let c3 := if strTruthy c2.cwd then c2 else { c2 with cwd := env.folderPath }
               let c4 := match c3.args with
                 | .arr toks => { c3 with args := .str (concatArgs toks) }
                 | _ => c3
               let c5 := match c4.vmArgs with
                 | .arr toks => { c4 with vmArgs := .str (concatArgs toks) }
                 | _ => c4
               if env.cancelled .afterArgs then ⟨.ok none, c5, []⟩
               else launchVmArgsSteps env c5))

/-- Lines 226-243: the cancellation check after the build section, the
progress report, and main-class resolution. -/
def launchAfterBuild (env : Env) (config : Config) : PipeOut :=
  if env.cancelled .afterBuild then ⟨.ok none, config, []⟩
  else
    let reportEff := if !strTruthy config.mainClass then
        InnerEff.report "Resolve mainClass" "Resolving main class..."
      else InnerEff.report "Resolve Configuration" "Resolving launch configuration..."
    match resolveAndValidateMainClass env config with
    | (.error e, effs) => ⟨.error e, config, reportEff :: effs⟩
    | (.ok mainClassOption, effs) =>
      match mainClassOption with
      | none => ⟨.ok none, config, reportEff :: effs⟩
      | some mco =>
        if mco.mainClass == "" then ⟨.ok none, config, reportEff :: effs⟩
        else
          let c1 := { config with mainClass := some mco.mainClass, projectName := mco.projectName }
          (launchTail env c1).prepend
            (reportEff :: effs
              ++ [InnerEff.report "Resolve Configuration" "Resolving launch configuration..."])

/-- Lines 202-291: the full launch branch (defaults, optional workspace
build, then `launchAfterBuild`). -/
def launchPipeline (env : Env) (config0 : Config) : PipeOut :=
  let config := applyLaunchDefaults env config0
  if env.needsBuild then
    let effs := [InnerEff.report "Compile" "Compiling Java workspace...", InnerEff.callBuildWorkspace]
    match env.buildResult with
    | .error e => ⟨.error e, config, effs⟩
    | .ok proceed =>
      if !proceed then ⟨.ok none, config, effs⟩
      else (launchAfterBuild env config).prepend effs
  else launchAfterBuild env config

/-- Lines 292-328: the attach branch. -/
def attachPipeline (env : Env) (config : Config) : PipeOut :=
  if strTruthy config.hostName && portTruthy config.port then
    let c := { config with processId := none }
    ⟨.ok (some c), c, [InnerEff.callPopulateStepFilters]⟩
  else
    match config.processId with
    | some pidValue =>
      if pidValue == .str pickJavaProcessSentinel then ⟨.ok none, config, []⟩
      else
        match pidValue.jsNumber with
        | none => ⟨.ok none, config, [InnerEff.showErrorMessage (invalidPidMessage pidValue)]⟩
        | some pid =>
          match env.resolveJavaProcess pid with
          | .error e => ⟨.error e, config, [InnerEff.callResolveJavaProcess pid]⟩
          | .ok none =>
            ⟨.ok none, config,
             [InnerEff.callResolveJavaProcess pid,
              InnerEff.showErrorMessage (notDebuggableMessage pidValue)]⟩
          | .ok (some javaProcess) =>
            let c := { config with
                       processId := none
                       hostName := some javaProcess.hostName
                       port := some javaProcess.debugPort }
            ⟨.ok (some c), c, [InnerEff.callResolveJavaProcess pid, InnerEff.callPopulateStepFilters]⟩
    | none => ⟨.error (.userError attachConfigError), config, []⟩

/-- Lines 196-200: synthesize a minimal in-memory launch configuration when
the provided configuration is empty. -/
def synthesizeEmptyConfig (config : Config) : Config :=
  if isEmptyConfig config.keys then
    { config with type := some "java", name := some "Java Debug", request := some "launch" }
  else config

/-- Lines 337-342: when the dispatched pipeline fell through, run the final
cancellation check and strip the `__progressId` correlation field; early
returns and thrown errors pass through unchanged. -/
def finalizeRun (env : Env) (p : PipeOut) : PipeOut :=
  match p with
  | ⟨.ok (some c), _, effs⟩ =>
    if env.tokenCancelled || env.cancelled .final then ⟨.ok none, c, effs⟩
    else
      let cFinal := { c with
                      progressId := none
                      keys := c.keys.filter (fun k => k != "__progressId") }
      ⟨.ok (some cFinal), cFinal, effs⟩
  | other => other

/-- The body of the `try` block (lines 185-342): standard-mode wait,
settings push, empty-config synthesis, dispatch on `request`, final
cancellation check and stripping of the correlation field. -/
def tryBody (env : Env) (config0 : Config) : PipeOut :=
  match env.standardMode with
  | .error e => ⟨.error e, config0, [InnerEff.callWaitForStandardMode]⟩
  | .ok isOnStandardMode =>
    if !isOnStandardMode || env.cancelled .afterStandardMode then
      ⟨.ok none, config0, [InnerEff.callWaitForStandardMode]⟩
    else
      let effs0 := [InnerEff.callWaitForStandardMode]
                   ++ (if env.isUserSettingsDirty then [InnerEff.callUpdateDebugSettings] else [])
      let config := synthesizeEmptyConfig config0
      let dispatched : PipeOut :=
        if config.request == some "launch" then launchPipeline env config
        else if config.request == some "attach" then attachPipeline env config
        else ⟨.error (.userError (requestTypeError config.request)), config, []⟩
      finalizeRun env (dispatched.prepend effs0)

/-- The catch block (lines 343-354): what each kind of thrown error makes
the orchestrator display. -/
def catchEffect : JsError → InnerEff
  | .notEnabled => .guideToInstallJavaExtension
  | .userError ctx => .showTroubleshooting ctx
  | .generic message => .showTroubleshooting { message := message, ty := .exception }

/-- Result of one full run of `resolveAndValidateDebugConfiguration`:
`result = none` models the method returning `undefined` (abandoned),
`state` is the configuration object after the run, and `trace` the
observable effects including tracker disposal. -/
structure RunOut where
  result : Option Config
  state : Config
  trace : List Eff
deriving Repr, DecidableEq

/-- Translation of `resolveAndValidateDebugConfiguration` (lines 172-358):
the pre-try tracker lookup and cancellation check, then the try body
wrapped in the catch and finally blocks. -/
def resolveAndValidateDebugConfiguration (env : Env) (config : Config) : RunOut :=
  if strTruthy config.progressId && !env.trackerRegistered then ⟨none, config, []⟩
  else if env.cancelled .preTry then ⟨none, config, []⟩
  else
    match tryBody env config with
    | ⟨.ok r, c, effs⟩ => ⟨r, c, effs.map Eff.act ++ [Eff.trackerCancel]⟩
    | ⟨.error e, c, effs⟩ =>
      ⟨none, c, effs.map Eff.act ++ [Eff.act (catchEffect e), Eff.trackerCancel]⟩

/-! ## Trace observations -/

/-- Number of `progressReporter.cancel()` calls in a trace. -/
def cancelCount (trace : List Eff) : Nat :=
  trace.countP (fun e => match e with | .trackerCancel => true | _ => false)

/-- Does a trace contain a call to the process resolver
(`resolveJavaProcess`)? -/
def callsProcessResolver (trace : List Eff) : Bool :=
  trace.any (fun e => match e with | .act (.callResolveJavaProcess _) => true | _ => false)

/-- Does a trace contain a call to the remote classpath resolver? -/
def callsClasspathResolver (trace : List Eff) : Bool :=
  trace.any (fun e => match e with | .act (.callResolveClasspath _) => true | _ => false)

/-- Does a trace contain a call to the java-executable resolver (the first
pipeline step after the classpath check)? -/
def callsJavaExecutableResolver (trace : List Eff) : Bool :=
  trace.any (fun e => match e with | .act (.callResolveJavaExecutable _) => true | _ => false)

/-- Does a trace display any user-facing error (plain error message or
error with troubleshooting guidance)? -/
def showsAnyError (trace : List Eff) : Bool :=
  trace.any (fun e => match e with
    | .act (.showErrorMessage _) => true
    | .act (.showTroubleshooting _) => true
    | _ => false)

/-! ## Concrete instances used to evaluate the theorems -/

/-- A benign environment: the host is on standard mode, nothing is
cancelled, no build is needed, and every remote call succeeds with a
simple value. -/
def baseEnv : Env :=
  { trackerRegistered := true
    cancelled := fun _ => false
    tokenCancelled := false
    standardMode := .ok true
    isUserSettingsDirty := false
    settingsVmArgs := .undefined
    settingsConsole := some "internalConsole"
    needsBuild := false
    buildResult := .ok true
    isFile := fun _ => false
    activeFile := none
    resolveMainMethod := fun _ => .ok []
    pickMainClass := fun l => l.head?
    resolveMainClassList := .ok []
    workspaceFolderName := none
    pickRecentMainClass := fun l => l.head?
    validateLaunchConfig := fun _ _ _ => .ok { mainClassValid := true, projectNameValid := true }
    fixAnswer := none
    pickFixMainClass := fun l => l.head?
    storedConfigs := []
    resolveClasspath := fun _ _ => .ok ([], ["/cp"])
    resolveJavaExecutable := fun _ _ => .ok "/usr/bin/java"
    folderPath := none
    detectPreviewFlag := fun _ _ => .ok false
    helpfulVmArgs := fun v => v
    detectLaunchCommandStyle := .ok "none"
    isWin32 := false
    launcherScriptPath := ""
    resolveJavaProcess := fun _ => .ok none }

/-- An attach configuration carrying hostName, port and a processId. -/
def attachHostPortCfg : Config :=
  { keys := ["type", "request", "hostName", "port", "processId"]
    type := some "java"
    request := some "attach"
    hostName := some "localhost"
    port := some 5005
    processId := some (.num 99) }

/-! ## Helper lemmas -/

/-- The character-level description of the escaping replacement. -/
theorem escapeQuotes_data (s : String) :
    (escapeQuotes s).data =
      s.data.flatMap (fun c => if c = '"' || c = '\\' then ['\\', c] else [c]) := by
  unfold escapeQuotes
  induction s.data with
  | nil => rfl
  | cons c cs ih => by_cases h : c = '"' ∨ c = '\\' <;> simpa [h] using ih

/-- The effects of the try body never include the tracker disposal. -/
theorem cancelCount_map_act (l : List InnerEff) : cancelCount (l.map Eff.act) = 0 := by
  induction l with
  | nil => rfl
  | cons e es ih => simp [cancelCount, List.countP_cons]

/-- The launch-defaults step only touches `vmArgs`, `console` and
`internalConsoleOptions`. -/
theorem applyLaunchDefaults_fields (env : Env) (c : Config) :
    (applyLaunchDefaults env c).classPaths = c.classPaths
    ∧ (applyLaunchDefaults env c).modulePaths = c.modulePaths
    ∧ (applyLaunchDefaults env c).mainClass = c.mainClass
    ∧ (applyLaunchDefaults env c).projectName = c.projectName
    ∧ (applyLaunchDefaults env c).request = c.request := by
  unfold applyLaunchDefaults
  refine ⟨?_, ?_, ?_, ?_, ?_⟩ <;> (dsimp only; split <;> split <;> split <;> rfl)

/-- The finalize step keeps the effect trace unchanged. -/
theorem finalizeRun_effs (env : Env) (p : PipeOut) : (finalizeRun env p).effs = p.effs := by
  unfold finalizeRun
  rcases p with ⟨o, c, effs⟩
  rcases o with e | r
  · rfl
  · rcases r with _ | c2
    · rfl
    · dsimp only
      split <;> rfl

/-- Every effect of the try body appears (lifted) in the trace of the full
run. -/
theorem act_mem_trace (env : Env) (config : Config) (e : InnerEff)
    (hpre : (strTruthy config.progressId && !env.trackerRegistered) = false)
    (hc0 : env.cancelled .preTry = false)
    (h : e ∈ (tryBody env config).effs) :
    Eff.act e ∈ (resolveAndValidateDebugConfiguration env config).trace := by
  rcases htb : tryBody env config with ⟨o, c, effs⟩
  rw [htb] at h
  rcases o with err | r <;>
    · simp only [resolveAndValidateDebugConfiguration, hpre, hc0, htb]
      simp [h]

/-- A usage error thrown by the try body makes the run abandon and show the
error with troubleshooting guidance. -/
theorem run_of_tryBody_userError (env : Env) (config : Config) (ctx : UserErrorContext)
    (hpre : (strTruthy config.progressId && !env.trackerRegistered) = false)
    (hc0 : env.cancelled .preTry = false)
    (h : (tryBody env config).outcome = .error (.userError ctx)) :
    (resolveAndValidateDebugConfiguration env config).result = none
    ∧ Eff.act (.showTroubleshooting ctx)
        ∈ (resolveAndValidateDebugConfiguration env config).trace := by
  rcases htb : tryBody env config with ⟨o, c, effs⟩
  rw [htb] at h
  simp at h
  rcases o with err | r
  · simp at h
    subst h
    simp [resolveAndValidateDebugConfiguration, hpre, hc0, htb, catchEffect]
  · simp at h

/-- When the classpath call returns a pair that is not both-empty, the
launch tail reaches the java-executable resolution step. -/
theorem launchTail_proceeds (env : Env) (c : Config) (mp cp : List String)
    (hc3 : env.cancelled .beforeClasspath = false)
    (hcp : pathsEmpty c.classPaths = true)
    (hmp : pathsEmpty c.modulePaths = true)
    (hrc : env.resolveClasspath (c.mainClass.getD "") c.projectName = .ok (mp, cp))
    (hne : ¬(mp = [] ∧ cp = [])) :
    InnerEff.callResolveJavaExecutable (c.mainClass.getD "") ∈ (launchTail env c).effs := by
  have hempty : (pathsEmpty (some cp) && pathsEmpty (some mp)) = false := by
    simp [pathsEmpty, List.isEmpty_iff]
    intro h1 h2
    exact absurd ⟨h2, h1⟩ hne
  unfold launchTail
  simp only [hc3, hcp, hmp, hrc, hempty, Bool.and_self, if_true, if_false,
    Bool.false_eq_true, PipeOut.prepend]
  simp

/-- When the classpath call returns two empty sequences, the launch tail
throws the usage error about unresolvable classpaths. -/
theorem launchTail_bothEmpty (env : Env) (c : Config) (mp cp : List String)
    (hc3 : env.cancelled .beforeClasspath = false)
    (hcp : pathsEmpty c.classPaths = true)
    (hmp : pathsEmpty c.modulePaths = true)
    (hrc : env.resolveClasspath (c.mainClass.getD "") c.projectName = .ok (mp, cp))
    (hmpe : mp = []) (hcpe : cp = []) :
    launchTail env c =
      ⟨.error (.userError classpathErrorContext),
       { c with modulePaths := some mp, classPaths := some cp },
       [InnerEff.callResolveClasspath (c.mainClass.getD "")]⟩ := by
  subst hmpe hcpe
  unfold launchTail
  simp only [hc3, Bool.false_eq_true, if_false, hcp, hmp, Bool.and_self, if_true, hrc]
  simp [PipeOut.prepend, pathsEmpty]

/-- When the cancellation check before the classpath call observes a
cancelled tracker, the launch tail returns early with no outcome, no
mutation and no effect. -/
theorem launchTail_cancelled (env : Env) (c : Config)
    (hc3 : env.cancelled .beforeClasspath = true) :
    launchTail env c = ⟨.ok none, c, []⟩ := by
  unfold launchTail
  simp [hc3]

/-- Shape of `launchAfterBuild` when main-class resolution succeeds. -/
theorem launchAfterBuild_tail (env : Env) (c : Config) (mco : MainClassOption)
    (mcEffs : List InnerEff)
    (hc2 : env.cancelled .afterBuild = false)
    (hmc : resolveAndValidateMainClass env c = (.ok (some mco), mcEffs))
    (hmco : mco.mainClass ≠ "") :
    launchAfterBuild env c =
      (launchTail env { c with mainClass := some mco.mainClass, projectName := mco.projectName }).prepend
        ((if !strTruthy c.mainClass then InnerEff.report "Resolve mainClass" "Resolving main class..."
          else InnerEff.report "Resolve Configuration" "Resolving launch configuration...")
          :: (mcEffs ++ [InnerEff.report "Resolve Configuration" "Resolving launch configuration..."])) := by
  unfold launchAfterBuild
  simp [hc2, hmc, hmco]

/-- Shape of `launchPipeline` when the workspace build (if requested)
succeeds and lets the session proceed. -/
theorem launchPipeline_build (env : Env) (c : Config)
    (hbuild : env.buildResult = .ok true) :
    launchPipeline env c =
      (launchAfterBuild env (applyLaunchDefaults env c)).prepend
        (if env.needsBuild then
          [InnerEff.report "Compile" "Compiling Java workspace...", InnerEff.callBuildWorkspace]
        else []) := by
  unfold launchPipeline
  cases hnb : env.needsBuild <;> simp [hnb, hbuild, PipeOut.prepend]

/-- Shape of the try body when the launch branch is dispatched. -/
theorem tryBody_launch (env : Env) (config : Config)
    (hsm : env.standardMode = .ok true)
    (hc1 : env.cancelled .afterStandardMode = false)
    (hne : isEmptyConfig config.keys = false)
    (hreq : config.request = some "launch") :
    tryBody env config =
      finalizeRun env ((launchPipeline env config).prepend
        (InnerEff.callWaitForStandardMode ::
          (if env.isUserSettingsDirty then [InnerEff.callUpdateDebugSettings] else []))) := by
  have hsynth : synthesizeEmptyConfig config = config := by simp [synthesizeEmptyConfig, hne]
  unfold tryBody
  simp [hsm, hc1, hsynth, hreq]

/-- Is an effect the remote classpath call? -/
def isClasspathCall : InnerEff → Bool
  | .callResolveClasspath _ => true
  | _ => false

/-- `promptMainClass` never calls the classpath resolver. -/
theorem promptMainClass_any_cp (env : Env) (hint : String) :
    (promptMainClass env hint).2.any isClasspathCall = false := by
  unfold promptMainClass
  rcases env.resolveMainClassList with e | res
  · simp [isClasspathCall]
  · by_cases h : (res.length == 0) = true <;> simp [h, isClasspathCall]

/-- `fixMainClass` never calls the classpath resolver. -/
theorem fixMainClass_any_cp (env : Env) (c : Config) (vr : ValidationResponse) :
    (fixMainClass env c vr).2.any isClasspathCall = false := by
  unfold fixMainClass
  rcases hp : vr.proposals with _ | props
  · simp [isClasspathCall]
  · simp only [hp]
    by_cases h1 : (props.length != 0) = true
    · simp only [h1, if_true]
      by_cases h2 : (env.fixAnswer == some "Fix") = true
      · simp only [h2, if_true]
        rcases hpk : env.pickFixMainClass props with _ | fix
        · simp [hp, hpk, isClasspathCall]
        · unfold persistMainClassOption persistLaunchConfig
          rcases hidx : List.findIdx? (fun x => x == c) env.storedConfigs with _ | i <;>
            simp [hp, hpk, hidx, isClasspathCall]
      · simp [h2, isClasspathCall]
    · simp [h1, isClasspathCall]

/-- `resolveAndValidateMainClass` never calls the classpath resolver. -/
theorem resolveMC_any_cp (env : Env) (c : Config) :
    (resolveAndValidateMainClass env c).2.any isClasspathCall = false := by
  unfold resolveAndValidateMainClass
  by_cases h0 : (!strTruthy c.mainClass || env.isFile (c.mainClass.getD "")) = true
  · rw [if_pos h0]
    simp only []
    by_cases h1 : strTruthy (if strTruthy c.mainClass = true then c.mainClass else env.activeFile) = true
    · rw [if_pos h1]
      split
      · simp [isClasspathCall]
      · split
        · simp [isClasspathCall]
        · simp only [List.any_cons]
          rw [promptMainClass_any_cp]
          simp [isClasspathCall]
    · rw [if_neg h1]
      exact promptMainClass_any_cp env _
  · rw [if_neg h0]
    simp only []
    split
    · simp [isClasspathCall]
    · split
      · simp only [List.any_cons]
        rw [fixMainClass_any_cp]
        simp [isClasspathCall]
      · simp [isClasspathCall]

/-- The classpath-call observation on a full trace reduces to the inner
effects. -/
theorem callsClasspathResolver_of_acts (l : List InnerEff) :
    callsClasspathResolver (l.map Eff.act ++ [Eff.trackerCancel]) = l.any isClasspathCall := by
  induction l with
  | nil => rfl
  | cons e es ih =>
    simp only [List.map_cons, List.cons_append, callsClasspathResolver, List.any_cons,
      List.any_append, List.any_nil] at ih ⊢
    cases e <;> simp [isClasspathCall] <;> simp_all

/-- When the try body completes without throwing, the run returns its
result. -/
theorem run_result_of_ok (env : Env) (config : Config) (r : Option Config)
    (hpre : (strTruthy config.progressId && !env.trackerRegistered) = false)
    (hc0 : env.cancelled .preTry = false)
    (h : (tryBody env config).outcome = .ok r) :
    (resolveAndValidateDebugConfiguration env config).result = r := by
  rcases htb : tryBody env config with ⟨o, c, effs⟩
  rw [htb] at h
  simp at h
  rcases o with err | r2
  · simp at h
  · simp at h
    subst h
    simp [resolveAndValidateDebugConfiguration, hpre, hc0, htb]

/-- When the try body completes without throwing, the trace of the run is
its effect list followed by the tracker disposal. -/
theorem run_trace_of_ok (env : Env) (config : Config) (r : Option Config)
    (hpre : (strTruthy config.progressId && !env.trackerRegistered) = false)
    (hc0 : env.cancelled .preTry = false)
    (h : (tryBody env config).outcome = .ok r) :
    (resolveAndValidateDebugConfiguration env config).trace
      = (tryBody env config).effs.map Eff.act ++ [Eff.trackerCancel] := by
  rcases htb : tryBody env config with ⟨o, c, effs⟩
  rw [htb] at h
  simp at h
  rcases o with err | r2
  · simp at h
  · simp at h
    subst h
    simp [resolveAndValidateDebugConfiguration, hpre, hc0, htb]

/-! ## Claim theorems -/

/-- C2: `concatArgs` coerces each token to its string form and joins the
transformed tokens with single spaces; a token is wrapped in double quotes
exactly when its string form contains a double quote or whitespace, and the
wrapped form escapes every internal backslash and double quote with a
preceding backslash; concretely the tokens a, b c, d"e concatenate to the
single string a "b c" "d\"e". -/
theorem c2_concatArgs_spec :
    (∀ args : List JSTok,
      concatArgs args = String.intercalate " " (args.map quoteToken))
    ∧ (∀ arg : JSTok, needsQuoting arg.jsToString = false → quoteToken arg = arg.jsToString)
    ∧ (∀ arg : JSTok, needsQuoting arg.jsToString = true →
        quoteToken arg = "\"" ++ escapeQuotes arg.jsToString ++ "\"")
    ∧ (∀ s : String, needsQuoting s = true ↔ ∃ c ∈ s.data, c = '"' ∨ isJsWhitespace c = true)
    ∧ (∀ s : String, (escapeQuotes s).data =
        s.data.flatMap (fun c => if c = '"' || c = '\\' then ['\\', c] else [c]))
    ∧ concatArgs [.str "a", .str "b c", .str "d\"e"] = "a \"b c\" \"d\\\"e\"" := by
  refine ⟨fun _ => rfl, ?_, ?_, ?_, escapeQuotes_data, by decide⟩
  · intro arg h
    simp [quoteToken, h]
  · intro arg h
    simp [quoteToken, h]
  · intro s
    simp [needsQuoting, List.any_eq_true]

/-- Witness for C2: the per-token clauses evaluated at the tokens of the
concrete example. -/
theorem c2_concatArgs_spec_witness :
    quoteToken (.str "a") = "a"
    ∧ quoteToken (.str "b c") = "\"b c\""
    ∧ needsQuoting "b c" = true
    ∧ (escapeQuotes "d\"e").data =
        (String.data "d\"e").flatMap (fun c => if c = '"' || c = '\\' then ['\\', c] else [c]) :=
  ⟨c2_concatArgs_spec.2.1 (.str "a") (by decide),
   by rw [c2_concatArgs_spec.2.2.1 (.str "b c") (by decide)]; decide,
   by rw [c2_concatArgs_spec.2.2.2.1 "b c"]; exact ⟨' ', by decide, by decide⟩,
   c2_concatArgs_spec.2.2.2.2.1 "d\"e"⟩

/-- C9: a configuration whose key set is empty or contains only "noDebug"
is classified empty by `isEmptyConfig`, and the pipeline then synthesizes a
minimal launch configuration with type "java", name "Java Debug" and
request "launch"; a configuration with any other key is left untouched by
the synthesis step. -/
theorem c9_emptyConfig_synthesis :
    isEmptyConfig ["noDebug"] = true
    ∧ isEmptyConfig [] = true
    ∧ (∀ keys : List String, isEmptyConfig keys = true ↔ ∀ k ∈ keys, k = "noDebug")
    ∧ (∀ c : Config, isEmptyConfig c.keys = true →
        synthesizeEmptyConfig c =
          { c with type := some "java", name := some "Java Debug", request := some "launch" })
    ∧ (∀ c : Config, isEmptyConfig c.keys = false → synthesizeEmptyConfig c = c) := by
  refine ⟨by decide, by decide, ?_, ?_, ?_⟩
  · intro keys
    simp [isEmptyConfig, List.filter_eq_nil_iff]
  · intro c h
    simp [synthesizeEmptyConfig, h]
  · intro c h
    simp [synthesizeEmptyConfig, h]

/-- Witness for C9: the synthesis evaluated on a configuration holding only
the noDebug key, and the classification of a one-key non-empty
configuration. -/
theorem c9_emptyConfig_synthesis_witness :
    synthesizeEmptyConfig { keys := ["noDebug"], noDebug := true } =
      { keys := ["noDebug"], noDebug := true, type := some "java",
        name := some "Java Debug", request := some "launch" }
    ∧ isEmptyConfig ["mainClass"] = false :=
  ⟨by rw [c9_emptyConfig_synthesis.2.2.2.1 { keys := ["noDebug"], noDebug := true } (by decide)],
   by have h := (c9_emptyConfig_synthesis.2.2.1 ["mainClass"]).not
      simp at h
      exact (Bool.not_eq_true _).mp (by simpa using h)⟩

/-- C10: a configuration carrying a non-empty `__progressId` for which no
progress reporter is registered makes the resolution return `undefined`
immediately: the configuration object is unchanged and the effect trace is
empty (no remote call, prompt or mutation happened). -/
theorem c10_unregistered_progressId (env : Env) (config : Config)
    (hid : strTruthy config.progressId = true)
    (hreg : env.trackerRegistered = false) :
    resolveAndValidateDebugConfiguration env config = ⟨none, config, []⟩ := by
  simp [resolveAndValidateDebugConfiguration, hid, hreg]

/-- Witness for C10: a configuration with a dangling progress id under an
environment with no registered reporter. -/
theorem c10_unregistered_progressId_witness :
    resolveAndValidateDebugConfiguration { baseEnv with trackerRegistered := false }
        { attachHostPortCfg with progressId := some "p1" } =
      ⟨none, { attachHostPortCfg with progressId := some "p1" }, []⟩ :=
  c10_unregistered_progressId { baseEnv with trackerRegistered := false }
    { attachHostPortCfg with progressId := some "p1" } (by decide) (by decide)

/-- C1: an attach configuration with truthy `hostName` and `port` takes the
hostName+port branch even when a `processId` is supplied: the returned
configuration has `processId` cleared and `hostName`/`port` unchanged, and
the processId branch never runs (the process resolver is not called and no
error is shown), so exactly one of the two attach branches runs. -/
theorem c1_attach_hostport_branch (env : Env) (config : Config)
    (hpre : (strTruthy config.progressId && !env.trackerRegistered) = false)
    (hc0 : env.cancelled .preTry = false)
    (hsm : env.standardMode = .ok true)
    (hc1 : env.cancelled .afterStandardMode = false)
    (hne : isEmptyConfig config.keys = false)
    (hreq : config.request = some "attach")
    (hhost : strTruthy config.hostName = true)
    (hport : portTruthy config.port = true)
    (htok : env.tokenCancelled = false)
    (hcf : env.cancelled .final = false) :
    ∃ out : Config,
      (resolveAndValidateDebugConfiguration env config).result = some out
      ∧ out.processId = none ∧ out.hostName = config.hostName ∧ out.port = config.port
      ∧ callsProcessResolver (resolveAndValidateDebugConfiguration env config).trace = false
      ∧ showsAnyError (resolveAndValidateDebugConfiguration env config).trace = false := by
  have hsynth : synthesizeEmptyConfig config = config := by
    simp [synthesizeEmptyConfig, hne]
  simp [resolveAndValidateDebugConfiguration, hpre, hc0, tryBody, finalizeRun, hsm, hc1,
    hsynth, hreq, attachPipeline, hhost, hport, PipeOut.prepend, htok, hcf,
    callsProcessResolver, showsAnyError]

/-- Witness for C1: the benign environment and an attach configuration
carrying hostName, port and a processId at once. -/
theorem c1_attach_hostport_branch_witness :
    ∃ out : Config,
      (resolveAndValidateDebugConfiguration baseEnv attachHostPortCfg).result = some out
      ∧ out.processId = none ∧ out.hostName = attachHostPortCfg.hostName
      ∧ out.port = attachHostPortCfg.port
      ∧ callsProcessResolver (resolveAndValidateDebugConfiguration baseEnv attachHostPortCfg).trace = false
      ∧ showsAnyError (resolveAndValidateDebugConfiguration baseEnv attachHostPortCfg).trace = false :=
  c1_attach_hostport_branch baseEnv attachHostPortCfg (by decide) (by decide) (by rfl)
    (by decide) (by decide) (by rfl) (by decide) (by decide) (by decide) (by decide)

/-- C8: in the attach branch with no truthy hostName+port pair, a supplied
`processId` equal to the pick-a-process sentinel makes resolution abandon
silently, and a `processId` whose JavaScript number coercion is NaN makes
resolution show the invalid-process-id error message and abandon without
ever calling the process resolver. -/
theorem c8_attach_processId_validation (env : Env) (config : Config) (pv : PIdVal)
    (hpre : (strTruthy config.progressId && !env.trackerRegistered) = false)
    (hc0 : env.cancelled .preTry = false)
    (hsm : env.standardMode = .ok true)
    (hc1 : env.cancelled .afterStandardMode = false)
    (hne : isEmptyConfig config.keys = false)
    (hreq : config.request = some "attach")
    (hhp : (strTruthy config.hostName && portTruthy config.port) = false)
    (hpid : config.processId = some pv) :
    (pv = .str pickJavaProcessSentinel →
      (resolveAndValidateDebugConfiguration env config).result = none
      ∧ showsAnyError (resolveAndValidateDebugConfiguration env config).trace = false
      ∧ callsProcessResolver (resolveAndValidateDebugConfiguration env config).trace = false)
    ∧ (pv ≠ .str pickJavaProcessSentinel → pv.jsNumber = none →
      (resolveAndValidateDebugConfiguration env config).result = none
      ∧ Eff.act (.showErrorMessage (invalidPidMessage pv))
          ∈ (resolveAndValidateDebugConfiguration env config).trace
      ∧ callsProcessResolver (resolveAndValidateDebugConfiguration env config).trace = false) := by
  have hsynth : synthesizeEmptyConfig config = config := by
    simp [synthesizeEmptyConfig, hne]
  constructor
  · intro hsent
    simp [resolveAndValidateDebugConfiguration, hpre, hc0, tryBody, finalizeRun, hsm, hc1,
      hsynth, hreq, attachPipeline, hhp, hpid, hsent, PipeOut.prepend,
      callsProcessResolver, showsAnyError]
  · intro hsent hnan
    simp [resolveAndValidateDebugConfiguration, hpre, hc0, tryBody, finalizeRun, hsm, hc1,
      hsynth, hreq, attachPipeline, hhp, hpid, hsent, hnan, PipeOut.prepend,
      callsProcessResolver, showsAnyError]

/-- Witness for C8: an attach configuration whose processId is the
non-numeric string abc, and one carrying the sentinel. -/
theorem c8_attach_processId_validation_witness :
    ((PIdVal.str "abc") ≠ .str pickJavaProcessSentinel
      ∧ (PIdVal.str "abc").jsNumber = none)
    ∧ ((resolveAndValidateDebugConfiguration baseEnv
          { attachHostPortCfg with hostName := none, port := none,
                                   processId := some (.str "abc") }).result = none
      ∧ Eff.act (.showErrorMessage (invalidPidMessage (.str "abc")))
          ∈ (resolveAndValidateDebugConfiguration baseEnv
              { attachHostPortCfg with hostName := none, port := none,
                                       processId := some (.str "abc") }).trace
      ∧ callsProcessResolver (resolveAndValidateDebugConfiguration baseEnv
          { attachHostPortCfg with hostName := none, port := none,
                                   processId := some (.str "abc") }).trace = false) :=
  ⟨⟨by decide, by decide⟩,
   (c8_attach_processId_validation baseEnv
      { attachHostPortCfg with hostName := none, port := none, processId := some (.str "abc") }
      (.str "abc") (by decide) (by decide) (by rfl) (by decide) (by decide) (by rfl)
      (by decide) (by rfl)).2 (by decide) (by decide)⟩

/-- C4: a configuration whose request is neither launch nor attach makes
the try body raise a usage-type UserError, which the orchestrator catches:
the error is shown with troubleshooting guidance and the resolution call
returns `undefined` instead of re-throwing. -/
theorem c4_unsupported_request (env : Env) (config : Config) (r : String)
    (hpre : (strTruthy config.progressId && !env.trackerRegistered) = false)
    (hc0 : env.cancelled .preTry = false)
    (hsm : env.standardMode = .ok true)
    (hc1 : env.cancelled .afterStandardMode = false)
    (hne : isEmptyConfig config.keys = false)
    (hreq : config.request = some r)
    (hr1 : r ≠ "launch") (hr2 : r ≠ "attach") :
    (tryBody env config).outcome = .error (.userError (requestTypeError (some r)))
    ∧ (requestTypeError (some r)).ty = .usageError
    ∧ (resolveAndValidateDebugConfiguration env config).result = none
    ∧ Eff.act (.showTroubleshooting (requestTypeError (some r)))
        ∈ (resolveAndValidateDebugConfiguration env config).trace := by
  have hsynth : synthesizeEmptyConfig config = config := by
    simp [synthesizeEmptyConfig, hne]
  have htb : (tryBody env config).outcome = .error (.userError (requestTypeError (some r))) := by
    simp [tryBody, finalizeRun, hsm, hc1, hsynth, hreq, hr1, hr2, PipeOut.prepend]
  refine ⟨htb, rfl, ?_, ?_⟩ <;>
    · rcases h : tryBody env config with ⟨o, c, effs⟩
      rw [h] at htb
      simp at htb
      simp [resolveAndValidateDebugConfiguration, hpre, hc0, h, htb, catchEffect]

/-- C5: in the launch pipeline, after the classpath call fills
`modulePaths`/`classPaths`, resolution throws the usage-type UserError about
unresolvable classpaths (and therefore abandons, showing the error with
troubleshooting guidance) exactly when both sequences are still empty; when
at least one is non-empty the pipeline proceeds to the java-executable
resolution step. -/
theorem c5_classpath_check (env : Env) (config : Config) (mco : MainClassOption)
    (mcEffs : List InnerEff) (mp cp : List String)
    (hpre : (strTruthy config.progressId && !env.trackerRegistered) = false)
    (hc0 : env.cancelled .preTry = false)
    (hsm : env.standardMode = .ok true)
    (hc1 : env.cancelled .afterStandardMode = false)
    (hne : isEmptyConfig config.keys = false)
    (hreq : config.request = some "launch")
    (hbuild : env.buildResult = .ok true)
    (hc2 : env.cancelled .afterBuild = false)
    (hmc : resolveAndValidateMainClass env (applyLaunchDefaults env config)
            = (.ok (some mco), mcEffs))
    (hmco : mco.mainClass ≠ "")
    (hc3 : env.cancelled .beforeClasspath = false)
    (hcp : pathsEmpty config.classPaths = true)
    (hmp : pathsEmpty config.modulePaths = true)
    (hrc : env.resolveClasspath mco.mainClass mco.projectName = .ok (mp, cp)) :
    (mp = [] → cp = [] →
      (tryBody env config).outcome = .error (.userError classpathErrorContext)
      ∧ classpathErrorContext.ty = .usageError
      ∧ (resolveAndValidateDebugConfiguration env config).result = none
      ∧ Eff.act (.showTroubleshooting classpathErrorContext)
          ∈ (resolveAndValidateDebugConfiguration env config).trace)
    ∧ (¬(mp = [] ∧ cp = []) →
      Eff.act (.callResolveJavaExecutable mco.mainClass)
          ∈ (resolveAndValidateDebugConfiguration env config).trace) := by
  have hfields := applyLaunchDefaults_fields env config
  have hcpT : pathsEmpty ({ applyLaunchDefaults env config with
      mainClass := some mco.mainClass, projectName := mco.projectName } : Config).classPaths = true := by
    show pathsEmpty (applyLaunchDefaults env config).classPaths = true
    rw [hfields.1]; exact hcp
  have hmpT : pathsEmpty ({ applyLaunchDefaults env config with
      mainClass := some mco.mainClass, projectName := mco.projectName } : Config).modulePaths = true := by
    show pathsEmpty (applyLaunchDefaults env config).modulePaths = true
    rw [hfields.2.1]; exact hmp
  have hrcT : env.resolveClasspath
      (({ applyLaunchDefaults env config with
          mainClass := some mco.mainClass, projectName := mco.projectName } : Config).mainClass.getD "")
      ({ applyLaunchDefaults env config with
          mainClass := some mco.mainClass, projectName := mco.projectName } : Config).projectName
      = .ok (mp, cp) := hrc
  have htb := tryBody_launch env config hsm hc1 hne hreq
  have hlp := launchPipeline_build env config hbuild
  have hlab := launchAfterBuild_tail env (applyLaunchDefaults env config) mco mcEffs hc2 hmc hmco
  constructor
  · intro hmpe hcpe
    have htail := launchTail_bothEmpty env _ mp cp hc3 hcpT hmpT hrcT hmpe hcpe
    have houtcome : (tryBody env config).outcome = .error (.userError classpathErrorContext) := by
      rw [htb, hlp, hlab, htail]
      simp [PipeOut.prepend, finalizeRun]
    refine ⟨houtcome, rfl, ?_, ?_⟩
    · exact (run_of_tryBody_userError env config classpathErrorContext hpre hc0 houtcome).1
    · exact (run_of_tryBody_userError env config classpathErrorContext hpre hc0 houtcome).2
  · intro hne2
    have htail := launchTail_proceeds env _ mp cp hc3 hcpT hmpT hrcT hne2
    apply act_mem_trace env config _ hpre hc0
    rw [htb, finalizeRun_effs, hlp, hlab]
    simp only [PipeOut.prepend]
    exact List.mem_append_right _ (List.mem_append_right _ (List.mem_append_right _ htail))

/-- Counterexample for C3: a run whose tracker is already cancelled before
the try block is entered returns `undefined` through an exit path on which
the tracker disposal is invoked zero times, not once, so the disposal is
not invoked on every abandonment exit path. -/
theorem c3_cancel_counterexample :
    (resolveAndValidateDebugConfiguration { baseEnv with cancelled := fun _ => true }
        attachHostPortCfg).result = none
    ∧ cancelCount (resolveAndValidateDebugConfiguration { baseEnv with cancelled := fun _ => true }
        attachHostPortCfg).trace = 0
    ∧ cancelCount (resolveAndValidateDebugConfiguration { baseEnv with cancelled := fun _ => true }
        attachHostPortCfg).trace ≠ 1 :=
  ⟨rfl, rfl, by decide⟩

/-- C3 (amended): once the try block is entered (the two pre-try exits —
unregistered progress id and tracker already cancelled before any
suspension point — invoke no disposal), the tracker disposal runs exactly
once on every exit path; and a cancellation observed at the check after a
suspension point (here the check immediately before the remote classpath
call) abandons the resolution with no further effect, no error, and no
classpath call anywhere in the run. -/
theorem c3_cancellation_handling :
    (∀ (env : Env) (config : Config),
      (strTruthy config.progressId && !env.trackerRegistered) = false →
      env.cancelled .preTry = false →
      cancelCount (resolveAndValidateDebugConfiguration env config).trace = 1)
    ∧ (∀ (env : Env) (c : Config), env.cancelled .beforeClasspath = true →
        launchTail env c = ⟨.ok none, c, []⟩)
    ∧ (∀ (env : Env) (config : Config) (mco : MainClassOption) (mcEffs : List InnerEff),
        (strTruthy config.progressId && !env.trackerRegistered) = false →
        env.cancelled .preTry = false →
        env.standardMode = .ok true →
        env.cancelled .afterStandardMode = false →
        isEmptyConfig config.keys = false →
        config.request = some "launch" →
        env.buildResult = .ok true →
        env.cancelled .afterBuild = false →
        resolveAndValidateMainClass env (applyLaunchDefaults env config)
          = (.ok (some mco), mcEffs) →
        mco.mainClass ≠ "" →
        env.cancelled .beforeClasspath = true →
        (tryBody env config).outcome = .ok none
        ∧ (resolveAndValidateDebugConfiguration env config).result = none
        ∧ callsClasspathResolver (resolveAndValidateDebugConfiguration env config).trace = false
        ∧ cancelCount (resolveAndValidateDebugConfiguration env config).trace = 1) := by
  have clause1 : ∀ (env : Env) (config : Config),
      (strTruthy config.progressId && !env.trackerRegistered) = false →
      env.cancelled .preTry = false →
      cancelCount (resolveAndValidateDebugConfiguration env config).trace = 1 := by
    intro env config hpre hc0
    rcases htb : tryBody env config with ⟨o, c, effs⟩
    rcases o with err | r <;>
      · simp only [resolveAndValidateDebugConfiguration, hpre, hc0, htb]
        simp [cancelCount, List.countP_append, cancelCount_map_act, List.countP_cons]
  refine ⟨clause1, fun env c hc3 => launchTail_cancelled env c hc3, ?_⟩
  intro env config mco mcEffs hpre hc0 hsm hc1 hne hreq hbuild hc2 hmc hmco hc3
  have htb := tryBody_launch env config hsm hc1 hne hreq
  have hlp := launchPipeline_build env config hbuild
  have hlab := launchAfterBuild_tail env (applyLaunchDefaults env config) mco mcEffs hc2 hmc hmco
  have htail := launchTail_cancelled env
    { applyLaunchDefaults env config with
      mainClass := some mco.mainClass, projectName := mco.projectName } hc3
  have hmcfx : mcEffs.any isClasspathCall = false := by
    have h := resolveMC_any_cp env (applyLaunchDefaults env config)
    rw [hmc] at h
    exact h
  have houtcome : (tryBody env config).outcome = .ok none := by
    rw [htb, hlp, hlab, htail]
    simp [PipeOut.prepend, finalizeRun]
  have hany : (tryBody env config).effs.any isClasspathCall = false := by
    rw [htb, finalizeRun_effs, hlp, hlab, htail]
    simp only [PipeOut.prepend, List.any_append, List.any_cons, List.any_nil]
    cases env.isUserSettingsDirty <;> cases env.needsBuild <;>
      cases htr : (!strTruthy (applyLaunchDefaults env config).mainClass) <;>
        simp [htr, isClasspathCall, hmcfx]
  refine ⟨houtcome, run_result_of_ok env config none hpre hc0 houtcome, ?_,
    clause1 env config hpre hc0⟩
  rw [run_trace_of_ok env config none hpre hc0 houtcome, callsClasspathResolver_of_acts]
  exact hany

/-- A launch configuration naming a qualified main class. -/
def launchCfg : Config :=
  { keys := ["type", "request", "mainClass"]
    type := some "java"
    request := some "launch"
    mainClass := some "a.Main" }

/-- An environment cancelled exactly at the check before the remote
classpath call. -/
def cancelAtClasspathEnv : Env :=
  { baseEnv with
    cancelled := fun s => match s with | .beforeClasspath => true | _ => false }

/-- Witness for C3 (amended): all three clauses evaluated concretely. -/
theorem c3_cancellation_handling_witness :
    cancelCount (resolveAndValidateDebugConfiguration baseEnv attachHostPortCfg).trace = 1
    ∧ launchTail cancelAtClasspathEnv launchCfg = ⟨.ok none, launchCfg, []⟩
    ∧ ((tryBody cancelAtClasspathEnv launchCfg).outcome = .ok none
      ∧ (resolveAndValidateDebugConfiguration cancelAtClasspathEnv launchCfg).result = none
      ∧ callsClasspathResolver
          (resolveAndValidateDebugConfiguration cancelAtClasspathEnv launchCfg).trace = false
      ∧ cancelCount
          (resolveAndValidateDebugConfiguration cancelAtClasspathEnv launchCfg).trace = 1) :=
  ⟨c3_cancellation_handling.1 baseEnv attachHostPortCfg (by decide) (by decide),
   c3_cancellation_handling.2.1 cancelAtClasspathEnv launchCfg (by decide),
   c3_cancellation_handling.2.2 cancelAtClasspathEnv launchCfg { mainClass := "a.Main" }
     [InnerEff.callValidateLaunchConfig "a.Main"]
     (by decide) (by decide) (by rfl) (by decide) (by decide) (by rfl) (by rfl) (by decide)
     (by rfl) (by decide) (by decide)⟩

/-- Witness for C5: both branches evaluated concretely; the environment of
the first conjunct returns two empty path lists, the second returns a
non-empty classpath. -/
theorem c5_classpath_check_witness :
    ((tryBody { baseEnv with resolveClasspath := fun _ _ => .ok ([], []) } launchCfg).outcome
        = .error (.userError classpathErrorContext)
      ∧ classpathErrorContext.ty = .usageError
      ∧ (resolveAndValidateDebugConfiguration
          { baseEnv with resolveClasspath := fun _ _ => .ok ([], []) } launchCfg).result = none
      ∧ Eff.act (.showTroubleshooting classpathErrorContext)
          ∈ (resolveAndValidateDebugConfiguration
              { baseEnv with resolveClasspath := fun _ _ => .ok ([], []) } launchCfg).trace)
    ∧ Eff.act (.callResolveJavaExecutable "a.Main")
        ∈ (resolveAndValidateDebugConfiguration baseEnv launchCfg).trace :=
  ⟨(c5_classpath_check { baseEnv with resolveClasspath := fun _ _ => .ok ([], []) } launchCfg
      { mainClass := "a.Main" } [InnerEff.callValidateLaunchConfig "a.Main"] [] []
      (by decide) (by decide) (by rfl) (by decide) (by decide) (by rfl) (by rfl) (by decide)
      (by rfl) (by decide) (by decide) (by decide) (by decide) (by rfl)).1 rfl rfl,
   (c5_classpath_check baseEnv launchCfg
      { mainClass := "a.Main" } [InnerEff.callValidateLaunchConfig "a.Main"] [] ["/cp"]
      (by decide) (by decide) (by rfl) (by decide) (by decide) (by rfl) (by rfl) (by decide)
      (by rfl) (by decide) (by decide) (by decide) (by decide) (by rfl)).2 (by simp)⟩

/-- Witness for C4: a configuration requesting the unsupported mode test. -/
theorem c4_unsupported_request_witness :
    (tryBody baseEnv { attachHostPortCfg with request := some "test" }).outcome
      = .error (.userError (requestTypeError (some "test")))
    ∧ (requestTypeError (some "test")).ty = .usageError
    ∧ (resolveAndValidateDebugConfiguration baseEnv
        { attachHostPortCfg with request := some "test" }).result = none
    ∧ Eff.act (.showTroubleshooting (requestTypeError (some "test")))
        ∈ (resolveAndValidateDebugConfiguration baseEnv
            { attachHostPortCfg with request := some "test" }).trace :=
  c4_unsupported_request baseEnv { attachHostPortCfg with request := some "test" } "test"
    (by decide) (by decide) (by rfl) (by decide) (by decide) (by rfl)
    (by decide) (by decide)

/-- C6: `persistLaunchConfig` locates the original configuration inside the
stored sequence by deep structural equality; when no element equals it, the
call writes nothing; when found at the first matching index i, exactly the
element at i is replaced by the updated configuration (all other positions
and the length unchanged) and the whole sequence is written back once. -/
theorem c6_persistLaunchConfig (stored : List Config) (oldC newC : Config) :
    (oldC ∉ stored → persistLaunchConfig stored oldC newC = (stored, []))
    ∧ (oldC ∈ stored →
        ∃ i : Nat, ∃ hi : i < stored.length,
          stored.get ⟨i, hi⟩ = oldC
          ∧ (∀ j, j < i → stored[j]? ≠ some oldC)
          ∧ (persistLaunchConfig stored oldC newC).1 = stored.set i newC
          ∧ (persistLaunchConfig stored oldC newC).2
              = [InnerEff.writeConfigurations (stored.set i newC)]
          ∧ (stored.set i newC)[i]? = some newC
          ∧ (∀ j, j ≠ i → (stored.set i newC)[j]? = stored[j]?)
          ∧ (stored.set i newC).length = stored.length) := by
  constructor
  · intro h
    have hnone : stored.findIdx? (fun c => c == oldC) = none := by
      rw [List.findIdx?_eq_none_iff]
      intro x hx
      simp only [beq_eq_false_iff_ne]
      rintro rfl
      exact h hx
    unfold persistLaunchConfig
    rw [hnone]
  · intro h
    have hsome : (stored.findIdx? (fun c => c == oldC)).isSome := by
      rw [List.findIdx?_isSome, List.any_eq_true]
      exact ⟨oldC, h, by simp⟩
    rcases hidx : stored.findIdx? (fun c => c == oldC) with _ | i
    · rw [hidx] at hsome
      simp at hsome
    · obtain ⟨hi, hp, hprev⟩ := List.findIdx?_eq_some_iff_getElem.mp hidx
      refine ⟨i, hi, by simpa using hp, ?_, ?_, ?_, ?_, ?_, ?_⟩
      · intro j hj
        have hjl : j < stored.length := Nat.lt_trans hj hi
        have hne := hprev j hj
        rw [List.getElem?_eq_getElem hjl]
        intro hc
        rw [Option.some.inj hc] at hne
        simp at hne
      · unfold persistLaunchConfig
        rw [hidx]
      · unfold persistLaunchConfig
        rw [hidx]
      · exact List.getElem?_set_self (by simpa using hi)
      · intro j hj
        exact List.getElem?_set_ne (Ne.symm hj)
      · simp

/-- Witness for C6: the no-op branch on a one-element store not containing
the original, and the replacement branch on a two-element store whose
second element is the original. -/
theorem c6_persistLaunchConfig_witness :
    persistLaunchConfig [launchCfg] attachHostPortCfg launchCfg = ([launchCfg], [])
    ∧ (∃ i : Nat, ∃ hi : i < ([launchCfg, attachHostPortCfg] : List Config).length,
        ([launchCfg, attachHostPortCfg] : List Config).get ⟨i, hi⟩ = attachHostPortCfg
        ∧ (∀ j, j < i → ([launchCfg, attachHostPortCfg] : List Config)[j]? ≠ some attachHostPortCfg)
        ∧ (persistLaunchConfig [launchCfg, attachHostPortCfg] attachHostPortCfg launchCfg).1
            = ([launchCfg, attachHostPortCfg] : List Config).set i launchCfg
        ∧ (persistLaunchConfig [launchCfg, attachHostPortCfg] attachHostPortCfg launchCfg).2
            = [InnerEff.writeConfigurations
                (([launchCfg, attachHostPortCfg] : List Config).set i launchCfg)]
        ∧ (([launchCfg, attachHostPortCfg] : List Config).set i launchCfg)[i]? = some launchCfg
        ∧ (∀ j, j ≠ i → (([launchCfg, attachHostPortCfg] : List Config).set i launchCfg)[j]?
            = ([launchCfg, attachHostPortCfg] : List Config)[j]?)
        ∧ (([launchCfg, attachHostPortCfg] : List Config).set i launchCfg).length
            = ([launchCfg, attachHostPortCfg] : List Config).length) :=
  ⟨(c6_persistLaunchConfig [launchCfg] attachHostPortCfg launchCfg).1 (by decide),
   (c6_persistLaunchConfig [launchCfg, attachHostPortCfg] attachHostPortCfg launchCfg).2
     (by decide)⟩

/-- Field lookup after a field update. -/
theorem lookupField_setField (fs : List (String × JSVal)) (k : String) (v : JSVal) (q : String) :
    lookupField (setField fs k v) q = if k = q then v else lookupField fs q := by
  induction fs with
  | nil =>
    by_cases h : k = q <;> simp [setField, lookupField, h]
  | cons p rest ih =>
    rcases p with ⟨k0, w⟩
    by_cases h0 : k0 = k <;> by_cases h : k0 = q <;>
      simp_all [setField, lookupField]
    rw [if_neg (fun hh => h0 hh.symm)]

/-- The platform-merge loop keeps the configuration an object. -/
theorem merge_loop_isObj (pn : String) (ks : List String) :
    ∀ fields : List (String × JSVal),
      ∃ gs, ks.foldl (fun acc k => acc.setProp k ((acc.getProp pn).getProp k)) (JSVal.obj fields)
        = JSVal.obj gs := by
  induction ks with
  | nil => exact fun fields => ⟨fields, rfl⟩
  | cons k rest ih =>
    intro fields
    simp only [List.foldl_cons]
    show ∃ gs, rest.foldl _
      (JSVal.obj (setField fields k (((JSVal.obj fields).getProp pn).getProp k))) = JSVal.obj gs
    exact ih _

/-- Pointwise description of the platform-merge loop, valid when the
iterated key list avoids the platform tag itself (so the re-read
`config[platformName]` stays the original block throughout). -/
theorem merge_loop_get (pn : String) (bfs : List (String × JSVal)) (ks : List String)
    (hpn : pn ∉ ks) :
    ∀ fields : List (String × JSVal), lookupField fields pn = .obj bfs →
    ∀ q, (ks.foldl (fun acc k => acc.setProp k ((acc.getProp pn).getProp k))
          (JSVal.obj fields)).getProp q
      = if q ∈ ks then lookupField bfs q else lookupField fields q := by
  induction ks with
  | nil =>
    intro fields _ q
    simp [JSVal.getProp]
  | cons k0 rest ih =>
    intro fields hinv q
    simp only [List.foldl_cons]
    have hk0 : k0 ≠ pn := by
      rintro rfl
      exact hpn (List.mem_cons_self _ _)
    have hstep : (JSVal.obj fields).setProp k0 (((JSVal.obj fields).getProp pn).getProp k0)
        = JSVal.obj (setField fields k0 (lookupField bfs k0)) := by
      simp [JSVal.setProp, JSVal.getProp, hinv]
    rw [hstep]
    have hinv2 : lookupField (setField fields k0 (lookupField bfs k0)) pn = .obj bfs := by
      rw [lookupField_setField, if_neg hk0]
      exact hinv
    rw [ih (fun hm => hpn (List.mem_cons_of_mem _ hm)) _ hinv2 q]
    by_cases hq : q ∈ rest
    · simp [hq]
    · simp only [if_neg hq]
      rw [lookupField_setField]
      by_cases hqk : q = k0
      · subst hqk
        simp
      · have hne : ¬(k0 = q) := fun hh => hqk hh.symm
        simp [List.mem_cons, hqk, hq, hne]

/-- A configuration whose platform block contains the platform tag itself as
a key: the loop reassigns `config[platformName]` mid-iteration and the later
block keys are then read through the reassigned value. -/
def platformCexConfig : JSVal :=
  .obj [("windows", .obj [("windows", .num 0), ("a", .num 1)]), ("x", .num 5)]

/-- Counterexample for C7: in `platformCexConfig` the platform block maps
key a to 1, yet after the merge the top-level key a holds `undefined`, so
the merge does not copy every key of the block when the block itself
contains the platform-tag key. -/
theorem c7_merge_counterexample :
    (platformCexConfig.getProp "windows").getProp "a" = .num 1
    ∧ (mergePlatformProperties (some "windows") platformCexConfig).getProp "a" = .undefined
    ∧ JSVal.undefined ≠ JSVal.num 1 :=
  ⟨rfl, rfl, fun h => JSVal.noConfusion h⟩

/-- C7 (amended): provided the platform block does not itself contain the
platform-tag key, the merge copies every key of the block into the
top-level configuration (overwriting same-named keys), leaves every other
top-level key except the platform tag unchanged, and discards the block by
setting the platform-tag key to `undefined`. -/
theorem c7_mergePlatformProperties (pn : String) (fields bfs : List (String × JSVal))
    (hblock : lookupField fields pn = .obj bfs)
    (hpn : pn ∉ bfs.map Prod.fst) :
    (∀ q, q ∈ bfs.map Prod.fst →
        (mergePlatformProperties (some pn) (.obj fields)).getProp q = lookupField bfs q)
    ∧ (∀ q, q ∉ bfs.map Prod.fst → q ≠ pn →
        (mergePlatformProperties (some pn) (.obj fields)).getProp q
          = (JSVal.obj fields).getProp q)
    ∧ (mergePlatformProperties (some pn) (.obj fields)).getProp pn = .undefined := by
  have hguard : ((JSVal.obj fields).truthy && ((JSVal.obj fields).getProp pn).truthy) = true := by
    simp [JSVal.truthy, JSVal.getProp, hblock]
  have hkeys : ((JSVal.obj fields).getProp pn).ownKeys = bfs.map Prod.fst := by
    simp [JSVal.getProp, hblock, JSVal.ownKeys]
  have hmerge : mergePlatformProperties (some pn) (.obj fields)
      = ((bfs.map Prod.fst).foldl (fun acc k => acc.setProp k ((acc.getProp pn).getProp k))
          (JSVal.obj fields)).setProp pn .undefined := by
    unfold mergePlatformProperties
    dsimp only
    rw [if_pos hguard, hkeys]
  obtain ⟨gs, hgs⟩ := merge_loop_isObj pn (bfs.map Prod.fst) fields
  have hloop := merge_loop_get pn bfs (bfs.map Prod.fst) hpn fields hblock
  have hfin : ∀ q, (mergePlatformProperties (some pn) (.obj fields)).getProp q
      = if pn = q then .undefined
        else if q ∈ bfs.map Prod.fst then lookupField bfs q else lookupField fields q := by
    intro q
    rw [hmerge, hgs, JSVal.setProp, JSVal.getProp, lookupField_setField]
    by_cases hq : pn = q
    · rw [if_pos hq, if_pos hq]
    · rw [if_neg hq, if_neg hq]
      have hl := hloop q
      rw [hgs] at hl
      simpa [JSVal.getProp] using hl
  refine ⟨?_, ?_, ?_⟩
  · intro q hq
    have hqpn : pn ≠ q := by
      rintro rfl
      exact hpn hq
    rw [hfin q, if_neg hqpn, if_pos hq]
  · intro q hq hqpn
    rw [hfin q, if_neg (fun hh => hqpn hh.symm), if_neg hq]
    simp [JSVal.getProp]
  · rw [hfin pn, if_pos rfl]

/-- Witness for C7 (amended): a windows block overriding `port`, with `cwd`
untouched and the block discarded. -/
theorem c7_mergePlatformProperties_witness :
    ((mergePlatformProperties (some "windows")
        (.obj [("windows", .obj [("port", .num 8000)]), ("port", .num 5005),
               ("cwd", .str "/w")])).getProp "port"
      = lookupField [("port", JSVal.num 8000)] "port")
    ∧ ((mergePlatformProperties (some "windows")
        (.obj [("windows", .obj [("port", .num 8000)]), ("port", .num 5005),
               ("cwd", .str "/w")])).getProp "cwd"
      = (JSVal.obj [("windows", .obj [("port", .num 8000)]), ("port", .num 5005),
                    ("cwd", .str "/w")]).getProp "cwd")
    ∧ (mergePlatformProperties (some "windows")
        (.obj [("windows", .obj [("port", .num 8000)]), ("port", .num 5005),
               ("cwd", .str "/w")])).getProp "windows" = .undefined :=
  ⟨(c7_mergePlatformProperties "windows"
      [("windows", .obj [("port", .num 8000)]), ("port", .num 5005), ("cwd", .str "/w")]
      [("port", .num 8000)] rfl (by simp)).1 "port" (by simp),
   (c7_mergePlatformProperties "windows"
      [("windows", .obj [("port", .num 8000)]), ("port", .num 5005), ("cwd", .str "/w")]
      [("port", .num 8000)] rfl (by simp)).2.1 "cwd" (by simp) (by simp),
   (c7_mergePlatformProperties "windows"
      [("windows", .obj [("port", .num 8000)]), ("port", .num 5005), ("cwd", .str "/w")]
      [("port", .num 8000)] rfl (by simp)).2.2⟩


end JavaDebug
